import Mathlib

/-!
Verification of the pub/sub CLI samples (`src/pubsub/topics.js`,
`src/pubsub/subscriptions.js`) against their natural-language specification.

The JavaScript is embedded shallowly: every operation takes the response of
the external messaging-service client as an explicit parameter (the client is
a remote collaborator, out of scope), and returns a trace recording the
`console.log`/`console.error` output, the remote client calls issued, and the
callback invocations with their arguments, in order.
-/

set_option autoImplicit false

namespace PubSubSamples

/-- JavaScript error values that flow through the samples: errors reported by
the external client, and runtime ReferenceErrors from unresolved identifiers. -/
inductive JsError where
  | clientError (msg : String)
  | referenceError (ident : String)
deriving DecidableEq, Repr

/-- The JSON values a CLI `publish` payload can be after `JSON.parse`.
The samples treat the payload opaquely (publish it, log it), so the exact
constructor set is irrelevant to every theorem below. -/
inductive Json where
  | jnull
  | jstr (s : String)
  | jnum (n : Nat)
  | jobj (fields : List (String × Json))

/-- A pulled pub/sub message as `subscription.pull` yields it: the payload
`data` and the acknowledgement id used by `subscription.ack`. -/
structure Msg where
  data : String
  ackId : String

/-- The external client's raw apiResponse value, treated as an opaque token. -/
structure ApiResponse where
  tag : Nat

/-- Subscription metadata as returned by `subscription.getMetadata`,
treated as an opaque token. -/
structure SubMetadata where
  tag : Nat

/-- One message payload handed to `topic.publish`: either the caller's JSON
value (plain `publishMessage`) or an ordered payload carrying a sequence id. -/
structure OrderedMessage where
  data : Json
  messageId : Nat

/-- Payload argument of a `topic.publish` remote call. -/
inductive PublishPayload where
  | plain (m : Json)
  | ordered (m : OrderedMessage)

/-- One remote call issued to the external messaging-service client, with the
arguments the JavaScript passes it. -/
inductive RemoteCall where
  | clientCreateTopic (topicName : String)
  | topicDelete (topicName : String)
  | topicPublish (topicName : String) (payload : PublishPayload)
  | clientGetTopics
  | clientGetSubscriptions
  | topicSubscribe (topicName : String) (subscriptionName : String)
  | subscriptionDelete (subscriptionName : String)
  | topicGetSubscriptions (topicName : String)
  | subscriptionGetMetadata (subscriptionName : String)
  | subscriptionPull (subscriptionName : String)
  | subscriptionAck (subscriptionName : String) (ackIds : List String)

/-- One line of console output, kept structured: one constructor per
`console.log` / `console.error` call site, holding that call's arguments. -/
inductive LogLine where
  | createdTopic (name : String)
  | deletedTopic (name : String)
  | publishedMessage (m : Json)
  | topicsHeader
  | topicLine (name : String)
  | createdSubscription (name : String)
  | deletedSubscription (name : String)
  | gotMetadata (subscriptionName : String)
  | subscriptionsHeader
  | subscriptionLine (name : String)
  | receivedMessage (data : String)
  | pulledCount (n : Nat)
  | ackedCount (n : Nat)
  | diagnostic (s : String)
  | errorValue (e : JsError)

/-- Arguments of one invocation of a Node-style callback, mirroring the four
shapes that occur in the sources: `callback(err)`, `callback()`,
`callback(null, metadata)`, `callback(null, messages, apiResponse)`. -/
inductive CbArgs where
  | withError (e : JsError)
  | noArgs
  | withMetadata (m : SubMetadata)
  | withMessages (msgs : List Msg) (api : ApiResponse)

/-- Trace of one operation: stdout lines, stderr lines, remote calls to the
external client, and callback invocations, each in program order. -/
structure OpTrace where
  logs : List LogLine
  errlogs : List LogLine
  remote : List RemoteCall
  cbs : List CbArgs

/-- The result of running a function that may throw synchronously: the trace
accumulated before the throw, and the thrown error if any. -/
structure JsRun where
  trace : OpTrace
  thrown : Option JsError

/-- The trace of a computation that did nothing yet. -/
def emptyTrace : OpTrace := { logs := [], errlogs := [], remote := [], cbs := [] }

/-! ### src/pubsub/topics.js -/

/-- Embeds `createTopic` (src/pubsub/topics.js lines 19-30). The client's
response to `pubsubClient.createTopic` is the parameter `res`: on error the
callback receives the error; on success the returned topic's name is logged
and the callback is invoked with no arguments. -/
def createTopic (topicName : String) (res : Except JsError String) : OpTrace :=
  match res with
  | .error e =>
      { logs := [], errlogs := [], remote := [.clientCreateTopic topicName],
        cbs := [.withError e] }
  | .ok createdName =>
      { logs := [.createdTopic createdName], errlogs := [],
        remote := [.clientCreateTopic topicName], cbs := [.noArgs] }

/-- Embeds `deleteTopic` (src/pubsub/topics.js lines 34-48). The local handle
`pubsubClient.topic(topicName)` carries the given name; `topic.delete`'s
response is the parameter `res`. -/
def deleteTopic (topicName : String) (res : Except JsError Unit) : OpTrace :=
  match res with
  | .error e =>
      { logs := [], errlogs := [], remote := [.topicDelete topicName],
        cbs := [.withError e] }
  | .ok _ =>
      { logs := [.deletedTopic topicName], errlogs := [],
        remote := [.topicDelete topicName], cbs := [.noArgs] }

/-- Embeds `publishMessage` (src/pubsub/topics.js lines 52-76). `topic.publish`
yields `(err, messageIds)`; on error the callback receives the error; on
success the code logs the stringified message and invokes `callback()` with no
arguments — the `messageIds` argument is bound but never used. -/
def publishMessage (topicName : String) (message : Json)
    (res : Except JsError (List Nat)) : OpTrace :=
  match res with
  | .error e =>
      { logs := [], errlogs := [],
        remote := [.topicPublish topicName (.plain message)],
        cbs := [.withError e] }
  | .ok _messageIds =>
      { logs := [.publishedMessage message], errlogs := [],
        remote := [.topicPublish topicName (.plain message)],
        cbs := [.noArgs] }

/-- Embeds `listTopics` (src/pubsub/topics.js lines 80-94):
`pubsubClient.getTopics` yields the topic list; on success a header line and
one line per topic name are logged, then `callback()`. -/
def listTopics (res : Except JsError (List String)) : OpTrace :=
  match res with
  | .error e =>
      { logs := [], errlogs := [], remote := [.clientGetTopics],
        cbs := [.withError e] }
  | .ok names =>
      { logs := .topicsHeader :: names.map .topicLine, errlogs := [],
        remote := [.clientGetTopics], cbs := [.noArgs] }

/-- The exact diagnostic the `publish` subcommand prints for a payload that
`JSON.parse` rejects (src/pubsub/topics.js line 125). -/
def invalidJsonMessage : String := "\"message\" must be a valid JSON string!"

/-- Embeds the `publish <topicName> <message>` subcommand handler
(src/pubsub/topics.js lines 120-127). `JSON.parse` is a JavaScript builtin,
modelled by the parameter `parse` (`none` = the parse throws). On parse
failure the `catch` prints the diagnostic to stderr and returns: no remote
call is made and `publishMessage` is never invoked. -/
def publishCommand (parse : String → Option Json) (topicName : String)
    (message : String) (res : Except JsError (List Nat)) : OpTrace :=
  match parse message with
  | none =>
      { logs := [], errlogs := [.diagnostic invalidJsonMessage],
        remote := [], cbs := [] }
  | some m => publishMessage topicName m res

/-! ### src/pubsub/subscriptions.js -/

/-- The identifiers bound in the module scope of src/pubsub/subscriptions.js:
its top-level `var` declarations and function declarations. `PubSub` is not
among them. -/
def subscriptionsModuleScope : List String :=
  ["pubsubClient", "createSubscription", "deleteSubscription",
   "getSubscriptionMetadata", "listSubscriptions", "listTopicSubscriptions",
   "handleMessage", "pullMessages", "cli", "makeHandler", "program"]

/-- Strict-mode identifier resolution: looking up an identifier that is bound
in neither the module scope nor any enclosing scope throws a ReferenceError. -/
def resolveIdent (scope : List String) (ident : String) : Except JsError Unit :=
  if ident ∈ scope then .ok () else .error (.referenceError ident)

/-- Embeds `createSubscription` (src/pubsub/subscriptions.js lines 19-33).
`topic.subscribe`'s response is the parameter `res` carrying the created
subscription's name. -/
def createSubscription (topicName : String) (subscriptionName : String)
    (res : Except JsError String) : OpTrace :=
  match res with
  | .error e =>
      { logs := [], errlogs := [],
        remote := [.topicSubscribe topicName subscriptionName],
        cbs := [.withError e] }
  | .ok createdName =>
      { logs := [.createdSubscription createdName], errlogs := [],
        remote := [.topicSubscribe topicName subscriptionName],
        cbs := [.noArgs] }

/-- Embeds `deleteSubscription` (src/pubsub/subscriptions.js lines 37-51).
The local handle `pubsubClient.subscription(subscriptionName)` carries the
given name; `subscription.delete`'s response is the parameter `res`. -/
def deleteSubscription (subscriptionName : String)
    (res : Except JsError Unit) : OpTrace :=
  match res with
  | .error e =>
      { logs := [], errlogs := [],
        remote := [.subscriptionDelete subscriptionName],
        cbs := [.withError e] }
  | .ok _ =>
      { logs := [.deletedSubscription subscriptionName], errlogs := [],
        remote := [.subscriptionDelete subscriptionName], cbs := [.noArgs] }

/-- Embeds `listSubscriptions` (src/pubsub/subscriptions.js lines 71-85). -/
def listSubscriptions (res : Except JsError (List String)) : OpTrace :=
  match res with
  | .error e =>
      { logs := [], errlogs := [], remote := [.clientGetSubscriptions],
        cbs := [.withError e] }
  | .ok names =>
      { logs := .subscriptionsHeader :: names.map .subscriptionLine,
        errlogs := [], remote := [.clientGetSubscriptions], cbs := [.noArgs] }

/-- Embeds `listTopicSubscriptions` (src/pubsub/subscriptions.js lines
89-108): `topic.getSubscriptions` yields the subscription list; on success a
header line and one line per subscription name are logged, then `callback()`. -/
def listTopicSubscriptions (topicName : String)
    (res : Except JsError (List String)) : OpTrace :=
  match res with
  | .error e =>
      { logs := [], errlogs := [],
        remote := [.topicGetSubscriptions topicName],
        cbs := [.withError e] }
  | .ok names =>
      { logs := .subscriptionsHeader :: names.map .subscriptionLine,
        errlogs := [], remote := [.topicGetSubscriptions topicName],
        cbs := [.noArgs] }

/-- Embeds what `getSubscriptionMetadata` (src/pubsub/subscriptions.js lines
54-68) would do after its first statement: call `subscription.getMetadata`
and relay error or metadata. -/
def getSubscriptionMetadataInner (subscriptionName : String)
    (res : Except JsError SubMetadata) : OpTrace :=
  match res with
  | .error e =>
      { logs := [], errlogs := [],
        remote := [.subscriptionGetMetadata subscriptionName],
        cbs := [.withError e] }
  | .ok m =>
      { logs := [.gotMetadata subscriptionName], errlogs := [],
        remote := [.subscriptionGetMetadata subscriptionName],
        cbs := [.withMetadata m] }

/-- Embeds `getSubscriptionMetadata` (src/pubsub/subscriptions.js lines
54-68). Its first statement is `var pubsub = PubSub();`, so the identifier
`PubSub` is resolved against the module scope before anything else runs. -/
def getSubscriptionMetadata (subscriptionName : String)
    (res : Except JsError SubMetadata) : JsRun :=
  match resolveIdent subscriptionsModuleScope "PubSub" with
  | .error e => { trace := emptyTrace, thrown := some e }
  | .ok _ =>
      { trace := getSubscriptionMetadataInner subscriptionName res,
        thrown := none }

/-- Embeds the pull/ack flow of `pullMessages` (src/pubsub/subscriptions.js
lines 121-144): on pull error the callback receives the error and no ack call
is issued; on pull success each message's data is logged via `handleMessage`,
the count is logged, the `ackId`s of the pulled messages are collected in
order and passed to `subscription.ack`, and on ack success the callback
receives the messages and the apiResponse. -/
def pullMessagesInner (subscriptionName : String)
    (pullRes : Except JsError (List Msg))
    (ackRes : Except JsError ApiResponse) : OpTrace :=
  match pullRes with
  | .error e =>
      { logs := [], errlogs := [],
        remote := [.subscriptionPull subscriptionName],
        cbs := [.withError e] }
  | .ok messages =>
      let ackIds := messages.map (fun m => m.ackId)
      match ackRes with
      | .error e =>
          { logs := messages.map (fun m => .receivedMessage m.data)
                      ++ [.pulledCount messages.length],
            errlogs := [],
            remote := [.subscriptionPull subscriptionName,
                       .subscriptionAck subscriptionName ackIds],
            cbs := [.withError e] }
      | .ok api =>
          { logs := messages.map (fun m => .receivedMessage m.data)
                      ++ [.pulledCount messages.length,
                          .ackedCount messages.length],
            errlogs := [],
            remote := [.subscriptionPull subscriptionName,
                       .subscriptionAck subscriptionName ackIds],
            cbs := [.withMessages messages api] }

/-- Embeds `pullMessages` (src/pubsub/subscriptions.js lines 115-145). Its
first statement is `var pubsub = PubSub();`, so the identifier `PubSub` is
resolved against the module scope before any remote call. -/
def pullMessages (subscriptionName : String)
    (pullRes : Except JsError (List Msg))
    (ackRes : Except JsError ApiResponse) : JsRun :=
  match resolveIdent subscriptionsModuleScope "PubSub" with
  | .error e => { trace := emptyTrace, thrown := some e }
  | .ok _ =>
      { trace := pullMessagesInner subscriptionName pullRes ackRes,
        thrown := none }

/-! ### Ordered publication (OrderedPublisher) -/

/-- The SequenceRegistry: a mapping from topic identifier to counter,
initialized empty at process start, represented as an association list so that
the lazy creation of entries is observable. -/
abbrev Registry : Type := List (String × Nat)

/-- The empty registry, the state at process start. -/
def Registry.empty : Registry := []

/-- Looks up the counter entry for a topic; `none` when no entry exists yet. -/
def lookupCounter : Registry → String → Option Nat
  | [], _ => none
  | (t, n) :: rest, topicName =>
      if t = topicName then some n else lookupCounter rest topicName

/-- Stores a counter value for a topic, creating the entry if absent. -/
def insertCounter : Registry → String → Nat → Registry
  | [], topicName, n => [(topicName, n)]
  | (t, m) :: rest, topicName, n =>
      if t = topicName then (t, n) :: rest
      else (t, m) :: insertCounter rest topicName n

/-- The observable outcome of one ordered-publish call: the updated registry,
the payload handed to the external publish capability, and the external
result relayed unchanged to the caller. -/
structure OrderedCall where
  registry : Registry
  payload : OrderedMessage
  result : Except JsError (List Nat)

/-- Modelled from the spec: `publishOrderedMessage` is exported by the
repository's topics module and exercised by its unit tests, but the version
of src/pubsub/topics.js in src/ predates it, so the operation is modelled
from spec sections 3 and 4.1: look up the counter for the topic in the
registry, seeding an absent entry at 0; increment by 1; build the outgoing
payload from the original `data` and a `messageId` field set to the new
counter value; invoke the external publish capability with that payload and
relay its result unchanged. The increment happens before the remote call and
is never rolled back on failure. -/
def publishOrderedMessage (registry : Registry) (topicName : String)
    (data : Json) (publishRes : Except JsError (List Nat)) : OrderedCall :=
  let prev := (lookupCounter registry topicName).getD 0
  let seq := prev + 1
  { registry := insertCounter registry topicName seq
    payload := { data := data, messageId := seq }
    result := publishRes }

/-- Runs a sequence of ordered-publish calls against one topic, one at a
time, threading the registry; each list element is the call's `data` together
with the external publish capability's response for that call. Returns the
final registry and the payloads in call order. -/
def runOrderedCalls (registry : Registry) (topicName : String) :
    List (Json × Except JsError (List Nat)) → Registry × List OrderedMessage
  | [] => (registry, [])
  | (d, res) :: rest =>
      let call := publishOrderedMessage registry topicName d res
      let next := runOrderedCalls call.registry topicName rest
      (next.1, call.payload :: next.2)

/-! ### The command-line surface of src/pubsub/topics.js -/

/-- The subcommands of src/pubsub/topics.js (lines 112-137). -/
inductive TopicsCmd where
  | create (topicName : String)
  | list
  | publish (topicName : String) (message : String)
  | delete (topicName : String)

/-- The external client's responses, one per remote operation the topics CLI
can issue. -/
structure TopicsClient where
  createTopicRes : Except JsError String
  getTopicsRes : Except JsError (List String)
  publishRes : Except JsError (List Nat)
  deleteRes : Except JsError Unit

/-- The observable outcome of one CLI invocation: stdout, stderr, and the
process exit code. -/
structure CliRun where
  stdout : List LogLine
  stderr : List LogLine
  exitCode : Nat

/-- Modelled from the spec: `makeHandler` lives in `../utils`, which is not
under src/; per spec section 6, a failure handed to the handler prints the
error to standard error and exits non-zero, and a success leaves the normal
exit path (code 0) — the confirmation line was already printed by the
operation itself. -/
def makeHandlerRun (cb : CbArgs) : List LogLine × Nat :=
  match cb with
  | .withError e => ([.errorValue e], 1)
  | _ => ([], 0)

/-- Completes a CLI invocation from an operation's trace: the single callback
invocation (when there is one) goes through the handler, which determines
stderr output and the exit code; a run that never reaches the handler (the
validation path) lets the process exit normally with code 0. -/
def finishCli (t : OpTrace) : CliRun :=
  match t.cbs with
  | [cb] =>
      let handled := makeHandlerRun cb
      { stdout := t.logs, stderr := t.errlogs ++ handled.1,
        exitCode := handled.2 }
  | _ => { stdout := t.logs, stderr := t.errlogs, exitCode := 0 }

/-- Embeds one invocation of the topics CLI (src/pubsub/topics.js lines
112-137 plus `main`): each subcommand dispatches to its operation with
`makeHandler(false)` as callback; the `publish` subcommand first parses its
message argument and on parse failure prints the diagnostic and returns. -/
def runTopicsCli (parse : String → Option Json) (client : TopicsClient) :
    TopicsCmd → CliRun
  | .create t => finishCli (createTopic t client.createTopicRes)
  | .list => finishCli (listTopics client.getTopicsRes)
  | .publish t s => finishCli (publishCommand parse t s client.publishRes)
  | .delete t => finishCli (deleteTopic t client.deleteRes)

/-! ### The command-line surface of src/pubsub/subscriptions.js -/

/-- The subcommands of src/pubsub/subscriptions.js (lines 164-192); `list`
takes an optional topic name. -/
inductive SubscriptionsCmd where
  | create (topicName : String) (subscriptionName : String)
  | list (topicName : Option String)
  | get (subscriptionName : String)
  | pull (subscriptionName : String)
  | delete (subscriptionName : String)

/-- The external client's responses, one per remote operation the
subscriptions CLI can issue. -/
structure SubscriptionsClient where
  subscribeRes : Except JsError String
  getSubscriptionsRes : Except JsError (List String)
  topicSubscriptionsRes : Except JsError (List String)
  metadataRes : Except JsError SubMetadata
  pullRes : Except JsError (List Msg)
  ackRes : Except JsError ApiResponse
  deleteRes : Except JsError Unit

/-- Completes a CLI invocation from an operation that may throw
synchronously: Node prints an uncaught exception to standard error and exits
non-zero; when nothing is thrown the trace is completed as in `finishCli`. -/
def finishCliRun (run : JsRun) : CliRun :=
  match run.thrown with
  | some e =>
      { stdout := run.trace.logs,
        stderr := run.trace.errlogs ++ [.errorValue e], exitCode := 1 }
  | none => finishCli run.trace

/-- Embeds one invocation of the subscriptions CLI
(src/pubsub/subscriptions.js lines 164-192 plus `main`): each subcommand
dispatches to its operation with `makeHandler` as callback; `list` dispatches
on the presence of the optional topic name. -/
def runSubscriptionsCli (client : SubscriptionsClient) :
    SubscriptionsCmd → CliRun
  | .create t s => finishCli (createSubscription t s client.subscribeRes)
  | .list none => finishCli (listSubscriptions client.getSubscriptionsRes)
  | .list (some t) =>
      finishCli (listTopicSubscriptions t client.topicSubscriptionsRes)
  | .get s => finishCliRun (getSubscriptionMetadata s client.metadataRes)
  | .pull s => finishCliRun (pullMessages s client.pullRes client.ackRes)
  | .delete s => finishCli (deleteSubscription s client.deleteRes)

/-! ### Registry lemmas -/

theorem lookupCounter_insertCounter_self (r : Registry) (t : String) (n : Nat) :
    lookupCounter (insertCounter r t n) t = some n := by
  induction r with
  | nil => simp [insertCounter, lookupCounter]
  | cons p rest ih =>
      obtain ⟨a, b⟩ := p
      by_cases h : a = t
      · simp [insertCounter, lookupCounter, h]
      · simp [insertCounter, lookupCounter, h, ih]

theorem lookupCounter_insertCounter_other (r : Registry) (t t' : String)
    (n : Nat) (h : t ≠ t') :
    lookupCounter (insertCounter r t n) t' = lookupCounter r t' := by
  induction r with
  | nil => simp [insertCounter, lookupCounter, h]
  | cons p rest ih =>
      obtain ⟨a, b⟩ := p
      by_cases ha : a = t
      · subst ha
        simp [insertCounter, lookupCounter, h]
      · simp [insertCounter, lookupCounter, ha, ih]

theorem runOrderedCalls_messageIds (t : String)
    (calls : List (Json × Except JsError (List Nat))) :
    ∀ r : Registry,
      (runOrderedCalls r t calls).2.map (fun m => m.messageId)
        = List.range' ((lookupCounter r t).getD 0 + 1) calls.length := by
  induction calls with
  | nil => intro r; simp [runOrderedCalls]
  | cons p rest ih =>
      intro r
      obtain ⟨d, res⟩ := p
      simp only [runOrderedCalls, publishOrderedMessage, List.map_cons,
        List.length_cons, List.range'_succ, ih,
        lookupCounter_insertCounter_self, Option.getD_some]

theorem runOrderedCalls_data (t : String)
    (calls : List (Json × Except JsError (List Nat))) :
    ∀ r : Registry,
      (runOrderedCalls r t calls).2.map (fun m => m.data)
        = calls.map Prod.fst := by
  induction calls with
  | nil => intro r; simp [runOrderedCalls]
  | cons p rest ih =>
      intro r
      obtain ⟨d, res⟩ := p
      simp [runOrderedCalls, publishOrderedMessage, ih]

theorem runOrderedCalls_frame (t t' : String) (h : t ≠ t')
    (calls : List (Json × Except JsError (List Nat))) :
    ∀ r : Registry,
      lookupCounter (runOrderedCalls r t calls).1 t' = lookupCounter r t' := by
  induction calls with
  | nil => intro r; simp [runOrderedCalls]
  | cons p rest ih =>
      intro r
      obtain ⟨d, res⟩ := p
      simp only [runOrderedCalls]
      rw [ih, publishOrderedMessage]
      exact lookupCounter_insertCounter_other r t t' _ h

/-- Supporting lemma: the pull/ack flow of `pullMessages`, taken on its own,
acknowledges exactly the `ackId`s of the pulled messages, in order, and then
calls back with those messages; a failed pull reaches the callback with the
error and issues no ack call. -/
theorem pullMessagesInner_acks_exactly (s : String) (messages : List Msg)
    (api : ApiResponse) (e : JsError) (ackRes : Except JsError ApiResponse) :
    (pullMessagesInner s (.ok messages) (.ok api)).remote
        = [.subscriptionPull s,
           .subscriptionAck s (messages.map (fun m => m.ackId))] ∧
    (pullMessagesInner s (.ok messages) (.ok api)).cbs
        = [.withMessages messages api] ∧
    (pullMessagesInner s (.error e) ackRes).remote = [.subscriptionPull s] ∧
    (pullMessagesInner s (.error e) ackRes).cbs = [.withError e] := by
  exact ⟨rfl, rfl, rfl, rfl⟩

/-- C1: for every topic `T` and every sequence of `N` successful
ordered-publish calls issued one-at-a-time against `T` via
`publishOrderedMessage`, the `messageId` values embedded in the published
payloads are exactly `1, 2, ..., N` in call order, and each payload carries
the original message data unchanged. -/
theorem ordered_publish_sequence (r : Registry) (t : String)
    (calls : List (Json × Except JsError (List Nat)))
    (hfresh : lookupCounter r t = none)
    (_hok : ∀ p ∈ calls, ∃ ids, p.2 = Except.ok ids) :
    (runOrderedCalls r t calls).2.map (fun m => m.messageId)
        = List.range' 1 calls.length ∧
    (runOrderedCalls r t calls).2.map (fun m => m.data)
        = calls.map Prod.fst := by
  refine ⟨?_, runOrderedCalls_data t calls r⟩
  rw [runOrderedCalls_messageIds t calls r, hfresh]
  rfl

/-- Witness for C1: publishing `Hello, world!` twice to the fresh topic
`greetings` embeds `messageId` 1 then 2, both payloads keeping the data. -/
theorem ordered_publish_sequence_witness :
    (runOrderedCalls Registry.empty "greetings"
        [(Json.jstr "Hello, world!", Except.ok [1]),
         (Json.jstr "Hello, world!", Except.ok [1])]).2.map
            (fun m => m.messageId) = [1, 2] ∧
    (runOrderedCalls Registry.empty "greetings"
        [(Json.jstr "Hello, world!", Except.ok [1]),
         (Json.jstr "Hello, world!", Except.ok [1])]).2.map (fun m => m.data)
      = [Json.jstr "Hello, world!", Json.jstr "Hello, world!"] := by
  have h := ordered_publish_sequence Registry.empty "greetings"
      [(Json.jstr "Hello, world!", Except.ok [1]),
       (Json.jstr "Hello, world!", Except.ok [1])] rfl
      (by
        intro p hp
        rcases List.mem_cons.mp hp with h1 | h2
        · exact ⟨[1], by rw [h1]⟩
        · rcases List.mem_cons.mp h2 with h3 | h4
          · exact ⟨[1], by rw [h3]⟩
          · cases h4)
  exact ⟨h.1, h.2⟩

/-- C4: if an ordered-publish call claims sequence number `k` and its
external publish fails, the error is relayed, the registry counter for the
topic stays at `k` (no rollback), the next successful call for the topic
embeds `k + 1`, and no sequence number is ever embedded twice for the same
topic over any sequence of calls. -/
theorem ordered_publish_no_rollback (r : Registry) (t : String) (d d2 : Json)
    (e : JsError) (ids : List Nat) :
    (publishOrderedMessage r t d (.error e)).result = .error e ∧
    lookupCounter (publishOrderedMessage r t d (.error e)).registry t
        = some (publishOrderedMessage r t d (.error e)).payload.messageId ∧
    (publishOrderedMessage (publishOrderedMessage r t d (.error e)).registry
        t d2 (.ok ids)).payload.messageId
      = (publishOrderedMessage r t d (.error e)).payload.messageId + 1 ∧
    ∀ calls : List (Json × Except JsError (List Nat)),
      ((runOrderedCalls r t calls).2.map (fun m => m.messageId)).Nodup := by
  refine ⟨rfl, ?_, ?_, ?_⟩
  · exact lookupCounter_insertCounter_self r t _
  · simp [publishOrderedMessage, lookupCounter_insertCounter_self]
  · intro calls
    rw [runOrderedCalls_messageIds t calls r]
    exact List.nodup_range' _ _

/-- C5: the first ordered-publish call to a topic with no registry entry
lazily creates the entry (seeded at 0, incremented to 1) and embeds
`messageId` 1 in the outgoing payload, keeping the data. -/
theorem ordered_publish_first_call (r : Registry) (t : String) (d : Json)
    (res : Except JsError (List Nat)) (hfresh : lookupCounter r t = none) :
    (publishOrderedMessage r t d res).payload.messageId = 1 ∧
    (publishOrderedMessage r t d res).payload.data = d ∧
    lookupCounter (publishOrderedMessage r t d res).registry t = some 1 := by
  refine ⟨?_, rfl, ?_⟩
  · simp [publishOrderedMessage, hfresh]
  · simp [publishOrderedMessage, hfresh, lookupCounter_insertCounter_self]

/-- Witness for C5: on the empty registry, the first ordered publish to
`greetings` embeds `messageId` 1 and stores counter 1. -/
theorem ordered_publish_first_call_witness :
    (publishOrderedMessage Registry.empty "greetings"
        (Json.jstr "Hello, world!") (Except.ok [1])).payload.messageId = 1 ∧
    (publishOrderedMessage Registry.empty "greetings"
        (Json.jstr "Hello, world!") (Except.ok [1])).payload.data
      = Json.jstr "Hello, world!" ∧
    lookupCounter (publishOrderedMessage Registry.empty "greetings"
        (Json.jstr "Hello, world!") (Except.ok [1])).registry "greetings"
      = some 1 :=
  ordered_publish_first_call Registry.empty "greetings"
    (Json.jstr "Hello, world!") (Except.ok [1]) rfl

/-- C6: the sequence counters of two distinct topics are independent: any
sequence of ordered-publish calls against `t1` leaves `t2`'s registry entry
unchanged, and `t2`'s next embedded `messageId` is the same as if the calls
to `t1` had not happened. -/
theorem ordered_counters_independent (r : Registry) (t1 t2 : String)
    (calls : List (Json × Except JsError (List Nat))) (hne : t1 ≠ t2) :
    lookupCounter (runOrderedCalls r t1 calls).1 t2 = lookupCounter r t2 ∧
    ∀ (d : Json) (res : Except JsError (List Nat)),
      (publishOrderedMessage (runOrderedCalls r t1 calls).1 t2 d
          res).payload.messageId
        = (publishOrderedMessage r t2 d res).payload.messageId := by
  have hframe := runOrderedCalls_frame t1 t2 hne calls r
  refine ⟨hframe, ?_⟩
  intro d res
  simp [publishOrderedMessage, hframe]

/-- Witness for C6: three calls to topic `a` leave topic `b`'s entry absent
and its next `messageId` at 1. -/
theorem ordered_counters_independent_witness :
    lookupCounter (runOrderedCalls Registry.empty "a"
        [(Json.jnull, Except.ok [1]), (Json.jnull, Except.ok [2]),
         (Json.jnull, Except.error (JsError.clientError "boom"))]).1 "b"
      = lookupCounter Registry.empty "b" ∧
    (publishOrderedMessage (runOrderedCalls Registry.empty "a"
        [(Json.jnull, Except.ok [1]), (Json.jnull, Except.ok [2]),
         (Json.jnull, Except.error (JsError.clientError "boom"))]).1 "b"
        Json.jnull (Except.ok [1])).payload.messageId
      = (publishOrderedMessage Registry.empty "b" Json.jnull
          (Except.ok [1])).payload.messageId := by
  have h := ordered_counters_independent Registry.empty "a" "b"
      [(Json.jnull, Except.ok [1]), (Json.jnull, Except.ok [2]),
       (Json.jnull, Except.error (JsError.clientError "boom"))] (by decide)
  exact ⟨h.1, h.2 Json.jnull (Except.ok [1])⟩

/-- C2 (failing input): when `topic.publish` succeeds with assigned message
identifiers `[1]`, `publishMessage` of src/pubsub/topics.js logs the message
but invokes its callback with no arguments — the identifiers assigned by the
external service are discarded, not relayed to the caller as the spec and the
repository's own unit test (`callback(null, [1], apiResponse)`) require. -/
theorem publishMessage_discards_ids :
    publishMessage "foo" (Json.jobj [("data", Json.jstr "Hello, world!")])
        (Except.ok [1])
      = { logs := [.publishedMessage
              (Json.jobj [("data", Json.jstr "Hello, world!")])],
          errlogs := [],
          remote := [.topicPublish "foo"
              (.plain (Json.jobj [("data", Json.jstr "Hello, world!")]))],
          cbs := [CbArgs.noArgs] } := rfl

/-- C3 (failing input): `pullMessages` with a client whose pull reports an
error never relays that error to its callback — the function throws a
ReferenceError for the unresolved identifier `PubSub` before any remote call,
so the callback is never invoked at all. -/
theorem pullMessages_client_error_not_relayed :
    (pullMessages "my-subscription"
        (Except.error (JsError.clientError "boom"))
        (Except.ok { tag := 0 })).thrown
      = some (JsError.referenceError "PubSub") ∧
    (pullMessages "my-subscription"
        (Except.error (JsError.clientError "boom"))
        (Except.ok { tag := 0 })).trace.cbs = [] ∧
    (pullMessages "my-subscription"
        (Except.error (JsError.clientError "boom"))
        (Except.ok { tag := 0 })).trace.remote = [] := ⟨rfl, rfl, rfl⟩

/-- C9 (failing input): even when the client would answer a pull with one
message and ack successfully, `pullMessages` issues no pull, no ack, and no
callback: it throws a ReferenceError for `PubSub` at entry. -/
theorem pullMessages_never_reaches_client :
    (pullMessages "my-subscription"
        (Except.ok [{ data := "Hello, world!", ackId := "ackId-1" }])
        (Except.ok { tag := 0 })).thrown
      = some (JsError.referenceError "PubSub") ∧
    (pullMessages "my-subscription"
        (Except.ok [{ data := "Hello, world!", ackId := "ackId-1" }])
        (Except.ok { tag := 0 })).trace.remote = [] ∧
    (pullMessages "my-subscription"
        (Except.ok [{ data := "Hello, world!", ackId := "ackId-1" }])
        (Except.ok { tag := 0 })).trace.cbs = [] := ⟨rfl, rfl, rfl⟩

/-- C10: every invocation of `getSubscriptionMetadata` or `pullMessages` in
src/pubsub/subscriptions.js evaluates the identifier `PubSub`, which the
module scope does not bind, so in strict mode each such call throws a
ReferenceError before any remote call is attempted, for every subscription
name and every client behavior. -/
theorem pubsub_identifier_unresolved (s : String)
    (mres : Except JsError SubMetadata)
    (pullRes : Except JsError (List Msg))
    (ackRes : Except JsError ApiResponse) :
    (getSubscriptionMetadata s mres).thrown
        = some (JsError.referenceError "PubSub") ∧
    (getSubscriptionMetadata s mres).trace.remote = [] ∧
    (getSubscriptionMetadata s mres).trace.cbs = [] ∧
    (pullMessages s pullRes ackRes).thrown
        = some (JsError.referenceError "PubSub") ∧
    (pullMessages s pullRes ackRes).trace.remote = [] ∧
    (pullMessages s pullRes ackRes).trace.cbs = [] :=
  ⟨rfl, rfl, rfl, rfl, rfl, rfl⟩

/-- C7: for every message argument that `JSON.parse` rejects, the `publish`
subcommand prints the diagnostic `"message" must be a valid JSON string!` to
stderr and aborts before any side effect: no remote call is made, no callback
runs, and `publishMessage` is never invoked. -/
theorem publish_command_rejects_invalid_json (parse : String → Option Json)
    (t s : String) (res : Except JsError (List Nat))
    (hbad : parse s = none) :
    publishCommand parse t s res
      = { logs := [], errlogs := [LogLine.diagnostic invalidJsonMessage],
          remote := [], cbs := [] } := by
  simp [publishCommand, hbad]

/-- Witness for C7: a concrete rejected payload produces exactly the
diagnostic and nothing else. -/
theorem publish_command_rejects_invalid_json_witness :
    publishCommand (fun _ => none) "greetings" "nope" (Except.ok [1])
      = { logs := [], errlogs := [LogLine.diagnostic invalidJsonMessage],
          remote := [], cbs := [] } :=
  publish_command_rejects_invalid_json (fun _ => none) "greetings" "nope"
    (Except.ok [1]) rfl

/-- C8 (counterexample): a `publish` invocation with a non-JSON payload — a
validation failure — prints the diagnostic to stderr but the process exits
with status 0, not non-zero: the handler is never reached and the command
handler returns normally. -/
theorem cli_validation_failure_exits_zero :
    runTopicsCli (fun _ => none)
      { createTopicRes := Except.ok "greetings", getTopicsRes := Except.ok [],
        publishRes := Except.ok [1], deleteRes := Except.ok () }
      (TopicsCmd.publish "greetings" "nope")
      = { stdout := [], stderr := [LogLine.diagnostic invalidJsonMessage],
          exitCode := 0 } := rfl

/-- C8 (amended): for every CLI subcommand invocation — topics CLI and
subscriptions CLI — success prints the operation's confirmation line(s) to
stdout and exits 0, and every failure (a collaborator error relayed to the
handler, or the uncaught ReferenceError of the `get` and `pull` subcommands)
prints the error to stderr and exits non-zero; except that a validation
failure (a non-JSON publish payload) prints its diagnostic to stderr and the
process exits with status 0, not non-zero. -/
theorem cli_exit_behavior (parse : String → Option Json)
    (tclient : TopicsClient) (sclient : SubscriptionsClient) :
    (∀ t name, tclient.createTopicRes = Except.ok name →
        runTopicsCli parse tclient (.create t)
          = { stdout := [.createdTopic name], stderr := [], exitCode := 0 }) ∧
    (∀ t e, tclient.createTopicRes = Except.error e →
        runTopicsCli parse tclient (.create t)
          = { stdout := [], stderr := [.errorValue e], exitCode := 1 }) ∧
    (∀ names, tclient.getTopicsRes = Except.ok names →
        runTopicsCli parse tclient .list
          = { stdout := .topicsHeader :: names.map .topicLine,
              stderr := [], exitCode := 0 }) ∧
    (∀ e, tclient.getTopicsRes = Except.error e →
        runTopicsCli parse tclient .list
          = { stdout := [], stderr := [.errorValue e], exitCode := 1 }) ∧
    (∀ t s m ids, parse s = some m → tclient.publishRes = Except.ok ids →
        runTopicsCli parse tclient (.publish t s)
          = { stdout := [.publishedMessage m], stderr := [],
              exitCode := 0 }) ∧
    (∀ t s m e, parse s = some m → tclient.publishRes = Except.error e →
        runTopicsCli parse tclient (.publish t s)
          = { stdout := [], stderr := [.errorValue e], exitCode := 1 }) ∧
    (∀ t, tclient.deleteRes = Except.ok () →
        runTopicsCli parse tclient (.delete t)
          = { stdout := [.deletedTopic t], stderr := [], exitCode := 0 }) ∧
    (∀ t e, tclient.deleteRes = Except.error e →
        runTopicsCli parse tclient (.delete t)
          = { stdout := [], stderr := [.errorValue e], exitCode := 1 }) ∧
    (∀ t s, parse s = none →
        runTopicsCli parse tclient (.publish t s)
          = { stdout := [], stderr := [.diagnostic invalidJsonMessage],
              exitCode := 0 }) ∧
    (∀ t s name, sclient.subscribeRes = Except.ok name →
        runSubscriptionsCli sclient (.create t s)
          = { stdout := [.createdSubscription name], stderr := [],
              exitCode := 0 }) ∧
    (∀ t s e, sclient.subscribeRes = Except.error e →
        runSubscriptionsCli sclient (.create t s)
          = { stdout := [], stderr := [.errorValue e], exitCode := 1 }) ∧
    (∀ names, sclient.getSubscriptionsRes = Except.ok names →
        runSubscriptionsCli sclient (.list none)
          = { stdout := .subscriptionsHeader :: names.map .subscriptionLine,
              stderr := [], exitCode := 0 }) ∧
    (∀ e, sclient.getSubscriptionsRes = Except.error e →
        runSubscriptionsCli sclient (.list none)
          = { stdout := [], stderr := [.errorValue e], exitCode := 1 }) ∧
    (∀ t names, sclient.topicSubscriptionsRes = Except.ok names →
        runSubscriptionsCli sclient (.list (some t))
          = { stdout := .subscriptionsHeader :: names.map .subscriptionLine,
              stderr := [], exitCode := 0 }) ∧
    (∀ t e, sclient.topicSubscriptionsRes = Except.error e →
        runSubscriptionsCli sclient (.list (some t))
          = { stdout := [], stderr := [.errorValue e], exitCode := 1 }) ∧
    (∀ s, runSubscriptionsCli sclient (.get s)
          = { stdout := [],
              stderr := [.errorValue (JsError.referenceError "PubSub")],
              exitCode := 1 }) ∧
    (∀ s, runSubscriptionsCli sclient (.pull s)
          = { stdout := [],
              stderr := [.errorValue (JsError.referenceError "PubSub")],
              exitCode := 1 }) ∧
    (∀ s, sclient.deleteRes = Except.ok () →
        runSubscriptionsCli sclient (.delete s)
          = { stdout := [.deletedSubscription s], stderr := [],
              exitCode := 0 }) ∧
    (∀ s e, sclient.deleteRes = Except.error e →
        runSubscriptionsCli sclient (.delete s)
          = { stdout := [], stderr := [.errorValue e], exitCode := 1 }) := by
  refine ⟨?_, ?_, ?_, ?_, ?_, ?_, ?_, ?_, ?_, ?_, ?_, ?_, ?_, ?_, ?_, ?_,
    ?_, ?_, ?_⟩
  · intro t name h
    simp [runTopicsCli, createTopic, h, finishCli, makeHandlerRun]
  · intro t e h
    simp [runTopicsCli, createTopic, h, finishCli, makeHandlerRun]
  · intro names h
    simp [runTopicsCli, listTopics, h, finishCli, makeHandlerRun]
  · intro e h
    simp [runTopicsCli, listTopics, h, finishCli, makeHandlerRun]
  · intro t s m ids hp h
    simp [runTopicsCli, publishCommand, publishMessage, hp, h, finishCli,
      makeHandlerRun]
  · intro t s m e hp h
    simp [runTopicsCli, publishCommand, publishMessage, hp, h, finishCli,
      makeHandlerRun]
  · intro t h
    simp [runTopicsCli, deleteTopic, h, finishCli, makeHandlerRun]
  · intro t e h
    simp [runTopicsCli, deleteTopic, h, finishCli, makeHandlerRun]
  · intro t s hp
    simp [runTopicsCli, publishCommand, hp, finishCli]
  · intro t s name h
    simp [runSubscriptionsCli, createSubscription, h, finishCli,
      makeHandlerRun]
  · intro t s e h
    simp [runSubscriptionsCli, createSubscription, h, finishCli,
      makeHandlerRun]
  · intro names h
    simp [runSubscriptionsCli, listSubscriptions, h, finishCli,
      makeHandlerRun]
  · intro e h
    simp [runSubscriptionsCli, listSubscriptions, h, finishCli,
      makeHandlerRun]
  · intro t names h
    simp [runSubscriptionsCli, listTopicSubscriptions, h, finishCli,
      makeHandlerRun]
  · intro t e h
    simp [runSubscriptionsCli, listTopicSubscriptions, h, finishCli,
      makeHandlerRun]
  · intro s
    rfl
  · intro s
    rfl
  · intro s h
    simp [runSubscriptionsCli, deleteSubscription, h, finishCli,
      makeHandlerRun]
  · intro s e h
    simp [runSubscriptionsCli, deleteSubscription, h, finishCli,
      makeHandlerRun]

/-- Witness for the amended C8: concrete successful publish, failing topic
create, rejected payload, failing subscription create, and a `pull`
invocation, each with the stated output and exit code. -/
theorem cli_exit_behavior_witness :
    runTopicsCli (fun s => if s = "good" then some Json.jnull else none)
      { createTopicRes := Except.error (JsError.clientError "denied"),
        getTopicsRes := Except.ok [], publishRes := Except.ok [1],
        deleteRes := Except.ok () }
      (TopicsCmd.publish "greetings" "good")
      = { stdout := [.publishedMessage Json.jnull], stderr := [],
          exitCode := 0 } ∧
    runTopicsCli (fun s => if s = "good" then some Json.jnull else none)
      { createTopicRes := Except.error (JsError.clientError "denied"),
        getTopicsRes := Except.ok [], publishRes := Except.ok [1],
        deleteRes := Except.ok () }
      (TopicsCmd.create "greetings")
      = { stdout := [],
          stderr := [.errorValue (JsError.clientError "denied")],
          exitCode := 1 } ∧
    runTopicsCli (fun s => if s = "good" then some Json.jnull else none)
      { createTopicRes := Except.error (JsError.clientError "denied"),
        getTopicsRes := Except.ok [], publishRes := Except.ok [1],
        deleteRes := Except.ok () }
      (TopicsCmd.publish "greetings" "bad")
      = { stdout := [], stderr := [.diagnostic invalidJsonMessage],
          exitCode := 0 } ∧
    runSubscriptionsCli
      { subscribeRes := Except.error (JsError.clientError "denied"),
        getSubscriptionsRes := Except.ok [],
        topicSubscriptionsRes := Except.ok [],
        metadataRes := Except.ok { tag := 0 }, pullRes := Except.ok [],
        ackRes := Except.ok { tag := 0 }, deleteRes := Except.ok () }
      (SubscriptionsCmd.create "greetings" "greetings-worker-1")
      = { stdout := [],
          stderr := [.errorValue (JsError.clientError "denied")],
          exitCode := 1 } ∧
    runSubscriptionsCli
      { subscribeRes := Except.error (JsError.clientError "denied"),
        getSubscriptionsRes := Except.ok [],
        topicSubscriptionsRes := Except.ok [],
        metadataRes := Except.ok { tag := 0 }, pullRes := Except.ok [],
        ackRes := Except.ok { tag := 0 }, deleteRes := Except.ok () }
      (SubscriptionsCmd.pull "greetings-worker-1")
      = { stdout := [],
          stderr := [.errorValue (JsError.referenceError "PubSub")],
          exitCode := 1 } := by
  obtain ⟨h1, h2, h3, h4, h5, h6, h7, h8, h9, h10, h11, h12, h13, h14, h15,
    h16, h17, h18, h19⟩ := cli_exit_behavior
      (fun s => if s = "good" then some Json.jnull else none)
      { createTopicRes := Except.error (JsError.clientError "denied"),
        getTopicsRes := Except.ok [], publishRes := Except.ok [1],
        deleteRes := Except.ok () }
      { subscribeRes := Except.error (JsError.clientError "denied"),
        getSubscriptionsRes := Except.ok [],
        topicSubscriptionsRes := Except.ok [],
        metadataRes := Except.ok { tag := 0 }, pullRes := Except.ok [],
        ackRes := Except.ok { tag := 0 }, deleteRes := Except.ok () }
  exact ⟨h5 "greetings" "good" Json.jnull [1] rfl rfl,
    h2 "greetings" (JsError.clientError "denied") rfl,
    h9 "greetings" "bad" rfl,
    h11 "greetings" "greetings-worker-1" (JsError.clientError "denied") rfl,
    h17 "greetings-worker-1"⟩
